import Mathlib

/-!
Shallow embedding of the `webapputil` repository (Go):
  * `request_id.go` (package `webapputil`): a request-ID middleware that stores a
    caller-generated identifier in the request context, and an accessor that
    reads it back, panicking when it is absent.
  * the `problem` package: an RFC 7807 `Problem` struct serialized with Go's
    `encoding/json` (`omitempty` semantics), and `SendProblem`, which sets the
    `Content-Type` header, writes the status line and streams the JSON body.

Go contexts become association lists of (key, value) pairs, Go's dynamic
`interface{}` values become small inductive types, and panics / returned
errors become explicit `Except` / `Option` results.
-/

set_option autoImplicit false

/-! ## Embedding of `request_id.go` (package `webapputil`) -/

/-- Keys of a Go `context.Context`.  `requestIDKey` models the package-private
value `requestIDKey = requestIDKeyType{}`; `other` models any context key owned
by unrelated code (which, the key type being unexported, can never equal
`requestIDKey`). -/
inductive CtxKey where
  | requestIDKey
  | other (name : String)
deriving DecidableEq, Repr

/-- Dynamically typed values stored in a Go context: either a `string` (the
only type this package stores) or a value of some other dynamic type. -/
inductive CtxVal where
  | str (s : String)
  | nonString (tag : String)
deriving DecidableEq, Repr

/-- A Go `context.Context`, as the chain of `context.WithValue` wrappers around
the root context: lookup walks from the innermost wrapper outwards. -/
def Context := List (CtxKey × CtxVal)

/-- Enable case analysis and literals on `Context` as a list. -/
instance : Inhabited Context := ⟨([] : List (CtxKey × CtxVal))⟩

/-- Go `ctx.Value(key)`: the innermost wrapper whose key matches wins;
`none` models the `nil` interface returned when no wrapper holds the key. -/
def Context.value : Context → CtxKey → Option CtxVal
  | [], _ => none
  | (k, v) :: rest, key => if k = key then some v else Context.value rest key

/-- Go `context.WithValue(ctx, k, v)`: wrap `ctx` with one more mapping. -/
def Context.withValue (ctx : Context) (k : CtxKey) (v : CtxVal) : Context :=
  (k, v) :: ctx

/-- The parts of a Go `*http.Request` the embedded code touches: the request
attributes (left untouched by this package) and the context. -/
structure Request where
  method : String
  url : String
  header : List (String × String)
  body : String
  ctx : Context

/-- Go `r.Context()`. -/
def Request.context (r : Request) : Context := r.ctx

/-- Go `r.WithContext(ctx)`: a shallow copy of the request with its context
replaced. -/
def Request.withContext (r : Request) (ctx : Context) : Request :=
  { r with ctx := ctx }

/-- A Go runtime panic relevant to this package: the unchecked type assertion
`.(string)` failing (value absent, i.e. `nil`, or not a `string`). -/
inductive GoPanic where
  | typeAssertionFailed
deriving DecidableEq, Repr

/-- Source `RequestID` (request_id.go lines 16-18):
`return r.Context().Value(requestIDKey).(string)` — the unchecked type
assertion panics when the key is absent or holds a non-string. -/
def RequestID (r : Request) : Except GoPanic String :=
  match (r.context).value CtxKey.requestIDKey with
  | some (CtxVal.str s) => Except.ok s
  | _ => Except.error GoPanic.typeAssertionFailed

/-- Source `RequestIDMiddleware` (request_id.go lines 22-27).  `next` is the
wrapped handler, abstract in the response-writer type `ω` and result type `α`;
the returned handler generates the ID, extends the context and calls `next`
with the re-associated request and the same writer. -/
def RequestIDMiddleware {ω α : Type} (next : ω → Request → α)
    (fn : Request → String) : ω → Request → α :=
  fun w r =>
    let reqID := fn r
    let ctx := Context.withValue (r.context) CtxKey.requestIDKey (CtxVal.str reqID)
    next w (r.withContext ctx)

/-- Events performed by the middleware's handler, in order: the call to the
caller-supplied generator, and the call to the wrapped handler. -/
inductive MWEvent where
  | generateID (id : String)
  | serveNext (r : Request)

/-- Instrumented trace of one run of the handler returned by
`RequestIDMiddleware` (request_id.go lines 23-26): line 24 calls `fn(r)`,
line 25 builds the extended context, line 26 calls `next.ServeHTTP`. -/
def RequestIDMiddlewareTrace (fn : Request → String) (r : Request) : List MWEvent :=
  let reqID := fn r
  let ctx := Context.withValue (r.context) CtxKey.requestIDKey (CtxVal.str reqID)
  [MWEvent.generateID reqID, MWEvent.serveNext (r.withContext ctx)]

/-- A concrete request used by witnesses. -/
def sampleRequest : Request :=
  { method := "GET", url := "/hello", header := [("Accept", "text/plain")],
    body := "", ctx := ([] : List (CtxKey × CtxVal)) }

/-- C1: for every request passed through `RequestIDMiddleware` with generator
`fn`, `RequestID` on the request the wrapped handler receives returns exactly
`fn r`; in particular with the constant generator `"abc-123"` the handler
reads `"abc-123"`. -/
theorem requestID_after_middleware (fn : Request → String) (w : Unit) (r : Request) :
    RequestID (RequestIDMiddleware (fun _ r' => r') fn w r) = Except.ok (fn r) ∧
    RequestID (RequestIDMiddleware (fun _ r' => r') (fun _ => "abc-123") w r) =
      Except.ok "abc-123" := by
  constructor <;>
    simp [RequestIDMiddleware, RequestID, Request.context, Request.withContext,
      Context.withValue, Context.value]

/-- C2: on a request whose context was never populated by the middleware
(no value stored under the private request-ID key), `RequestID` panics via the
failed type assertion — the result is the panic, not `Except.ok` of an empty
string or of any other value. -/
theorem requestID_panics_without_middleware (r : Request)
    (h : (r.context).value CtxKey.requestIDKey = none) :
    RequestID r = Except.error GoPanic.typeAssertionFailed := by
  simp [RequestID, h]

/-- Witness for C2 at a concrete request with an empty context. -/
theorem requestID_panics_without_middleware_witness :
    (sampleRequest.context).value CtxKey.requestIDKey = none ∧
    RequestID sampleRequest = Except.error GoPanic.typeAssertionFailed :=
  ⟨rfl, requestID_panics_without_middleware sampleRequest rfl⟩

/-- Test whether a middleware event is a call to the generator function. -/
def MWEvent.isGenerateID : MWEvent → Bool
  | MWEvent.generateID _ => true
  | _ => false

/-- Test whether a middleware event is the call to the wrapped handler. -/
def MWEvent.isServeNext : MWEvent → Bool
  | MWEvent.serveNext _ => true
  | _ => false

/-- C8: for every request handled by the middleware's handler, the trace has
exactly one generator call — the first event, carrying `fn r` — and the call to
the wrapped handler comes strictly after it. -/
theorem middleware_calls_generator_once_before_next
    (fn : Request → String) (r : Request) :
    (RequestIDMiddlewareTrace fn r).map MWEvent.isGenerateID = [true, false] ∧
    (RequestIDMiddlewareTrace fn r).map MWEvent.isServeNext = [false, true] ∧
    (RequestIDMiddlewareTrace fn r).head? = some (MWEvent.generateID (fn r)) :=
  ⟨rfl, rfl, rfl⟩

/-- C9: the middleware passes the wrapped handler the same response writer and
a request unchanged except for its context, and the new context still yields
every value the original context held under any key other than the private
request-ID key. -/
theorem middleware_frame_effect (fn : Request → String) {ω : Type} (w : ω) (r : Request)
    (k : CtxKey) (hk : k ≠ CtxKey.requestIDKey) :
    (RequestIDMiddleware (fun w' _ => w') fn w r = w) ∧
    ((RequestIDMiddleware (fun _ r' => r') fn w r).method = r.method ∧
     (RequestIDMiddleware (fun _ r' => r') fn w r).url = r.url ∧
     (RequestIDMiddleware (fun _ r' => r') fn w r).header = r.header ∧
     (RequestIDMiddleware (fun _ r' => r') fn w r).body = r.body) ∧
    ((RequestIDMiddleware (fun _ r' => r') fn w r).context).value k =
      (r.context).value k := by
  refine ⟨rfl, ⟨rfl, rfl, rfl, rfl⟩, ?_⟩
  have hne : ¬ (CtxKey.requestIDKey = k) := fun h => hk h.symm
  simp [RequestIDMiddleware, Request.context, Request.withContext,
    Context.withValue, Context.value, hne]

/-- Witness for C9 at concrete generator, writer, request and key. -/
theorem middleware_frame_effect_witness :
    CtxKey.other "traceKey" ≠ CtxKey.requestIDKey ∧
    ((RequestIDMiddleware (fun w' _ => w') (fun _ => "id-1") (3 : Nat) sampleRequest = 3) ∧
     ((RequestIDMiddleware (fun _ r' => r') (fun _ => "id-1") (3 : Nat) sampleRequest).method =
        sampleRequest.method ∧
      (RequestIDMiddleware (fun _ r' => r') (fun _ => "id-1") (3 : Nat) sampleRequest).url =
        sampleRequest.url ∧
      (RequestIDMiddleware (fun _ r' => r') (fun _ => "id-1") (3 : Nat) sampleRequest).header =
        sampleRequest.header ∧
      (RequestIDMiddleware (fun _ r' => r') (fun _ => "id-1") (3 : Nat) sampleRequest).body =
        sampleRequest.body) ∧
     ((RequestIDMiddleware (fun _ r' => r') (fun _ => "id-1") (3 : Nat)
          sampleRequest).context).value (CtxKey.other "traceKey") =
        (sampleRequest.context).value (CtxKey.other "traceKey")) :=
  ⟨by decide,
   middleware_frame_effect (fun _ => "id-1") (3 : Nat) sampleRequest
     (CtxKey.other "traceKey") (by decide)⟩

/-- C10: when the generator returns the empty string, the middleware still
stores it, and `RequestID` inside the wrapped handler returns `""` as a
success, not a panic. -/
theorem middleware_stores_empty_id (fn : Request → String) (w : Unit) (r : Request)
    (h : fn r = "") :
    RequestID (RequestIDMiddleware (fun _ r' => r') fn w r) = Except.ok "" := by
  simp [RequestIDMiddleware, RequestID, Request.context, Request.withContext,
    Context.withValue, Context.value, h]

/-- Witness for C10 with the constant empty-string generator. -/
theorem middleware_stores_empty_id_witness :
    ((fun _ : Request => "") sampleRequest = "") ∧
    RequestID (RequestIDMiddleware (fun _ r' => r') (fun _ : Request => "") () sampleRequest) =
      Except.ok "" :=
  ⟨rfl, middleware_stores_empty_id (fun _ => "") () sampleRequest rfl⟩

/-! ## Embedding of the problem package (src/unnamed/part_000) -/

/-- Source constant (part_000 line 113): the problem-detail media type. -/
def contentType : String := "application/problem+json"

/-- Source struct `Problem` (part_000 lines 117-123), RFC 7807 base fields.
Go field names `Type` and `Instance` are Lean keywords in lowercase JSON-tag
form, so `type` is usable but `instance` must be escaped. -/
structure Problem where
  type : String
  title : String
  status : Int
  detail : String
  «instance» : String
deriving DecidableEq, Repr

/-- Hexadecimal digit character, as Go's `encoding/json` emits them
(lower-case). -/
def hexDigit (n : Nat) : Char :=
  if n < 10 then Char.ofNat (48 + n) else Char.ofNat (87 + n)

/-- Escaping of one character in a JSON string, following Go's
`encoding/json` string encoder with its default HTML escaping: `"` and `\`
are backslash-escaped, `\n`, `\r`, `\t` use their short forms, other control
characters become `\u00xx`, and `<`, `>`, `&`, U+2028, U+2029 are escaped as
`\uxxxx`. -/
def escapeJSONChar (c : Char) : String :=
  if c = '"' then "\\\""
  else if c = '\\' then "\\\\"
  else if c = '\n' then "\\n"
  else if c = '\r' then "\\r"
  else if c = '\t' then "\\t"
  else if c.toNat < 32 then
    String.mk ['\\', 'u', '0', '0', hexDigit (c.toNat / 16), hexDigit (c.toNat % 16)]
  else if c = '<' then "\\u003c"
  else if c = '>' then "\\u003e"
  else if c = '&' then "\\u0026"
  else if c.toNat = 8232 then "\\u2028"
  else if c.toNat = 8233 then "\\u2029"
  else String.singleton c

/-- Go JSON encoding of a string value: quoted, characters escaped. -/
def encodeJSONString (s : String) : String :=
  "\"" ++ String.join (s.toList.map escapeJSONChar) ++ "\""

/-- The key/encoded-value pairs `encoding/json` emits for a `Problem` value,
in declared field order; every field carries `omitempty`, so a field whose
value is the zero value of its type (empty string, `0`) contributes nothing. -/
def Problem.jsonFields (p : Problem) : List (String × String) :=
  (if p.type = "" then [] else [("type", encodeJSONString p.type)]) ++
  (if p.title = "" then [] else [("title", encodeJSONString p.title)]) ++
  (if p.status = 0 then [] else [("status", toString p.status)]) ++
  (if p.detail = "" then [] else [("detail", encodeJSONString p.detail)]) ++
  (if p.«instance» = "" then [] else [("instance", encodeJSONString p.«instance»)])

/-- Go `json.Marshal` of a `Problem` value: a JSON object of the emitted
fields. -/
def Problem.marshal (p : Problem) : String :=
  "\x7b" ++
    String.intercalate "," ((p.jsonFields).map (fun f => encodeJSONString f.1 ++ ":" ++ f.2)) ++
  "\x7d"

/-- A Go `interface{}` argument to `SendProblem`: either a `Problem`
value, or a value of a type `encoding/json` cannot encode (a channel, a
function, ...), which makes `Marshal` fail. -/
inductive GoValue where
  | problemVal (p : Problem)
  | unencodable (typeName : String)

/-- Go `json.Marshal` on a dynamic value: succeeds on a `Problem`, fails with
an unsupported-type error otherwise. -/
def GoValue.marshal : GoValue → Except String String
  | GoValue.problemVal p => Except.ok p.marshal
  | GoValue.unencodable t => Except.error ("json: unsupported type: " ++ t)

/-- Observable operations `SendProblem` performs on its `http.ResponseWriter`,
in order of occurrence. -/
inductive RWEvent where
  | setHeader (key value : String)
  | writeHeader (code : Int)
  | write (chunk : String)
deriving DecidableEq, Repr

/-- Test whether a response-writer event is a body write. -/
def RWEvent.isWrite : RWEvent → Bool
  | RWEvent.write _ => true
  | _ => false

/-- Go `http.Header.Set(key, value)`: replaces any existing values associated
with the key with the single new value. -/
def Header.set (h : List (String × String)) (key value : String) :
    List (String × String) :=
  (key, value) :: h.filter (fun e => !(e.1 == key))

/-- The parts of a Go `http.ResponseWriter` the embedded code touches: the
header map, the status line once written, the accumulated body bytes, an
abstract failure mode of the underlying stream (`some e` when every write
fails with error `e`, as on a cancelled connection), and the event trace. -/
structure ResponseWriter where
  header : List (String × String)
  wroteHeader : Option Int
  body : String
  writeError : Option String
  events : List RWEvent

/-- Go `w.Header().Set(key, value)`. -/
def ResponseWriter.setHeader (w : ResponseWriter) (key value : String) :
    ResponseWriter :=
  { w with header := Header.set w.header key value,
           events := w.events ++ [RWEvent.setHeader key value] }

/-- Go `w.WriteHeader(code)`: writes the status line; a second call is
superfluous and ignored by `net/http`. -/
def ResponseWriter.writeHeader (w : ResponseWriter) (code : Int) : ResponseWriter :=
  match w.wroteHeader with
  | some _ => w
  | none => { w with wroteHeader := some code,
                     events := w.events ++ [RWEvent.writeHeader code] }

/-- Go `w.Write(chunk)`: fails when the underlying stream does; otherwise
implicitly sends status 200 if no status line was written yet, then appends
the bytes to the body. -/
def ResponseWriter.write (w : ResponseWriter) (chunk : String) :
    ResponseWriter × Option String :=
  match w.writeError with
  | some e => (w, some e)
  | none =>
    let w1 :=
      match w.wroteHeader with
      | none => { w with wroteHeader := some 200,
                         events := w.events ++ [RWEvent.writeHeader 200] }
      | some _ => w
    ({ w1 with body := w1.body ++ chunk,
               events := w1.events ++ [RWEvent.write chunk] }, none)

/-- Go `json.NewEncoder(w).Encode(v)`: marshals `v`, returning the marshal
error if any, and otherwise writes the JSON text followed by a newline,
returning the write error if any. -/
def Encoder.encode (w : ResponseWriter) (v : GoValue) : ResponseWriter × Option String :=
  match v.marshal with
  | Except.error e => (w, some e)
  | Except.ok s => w.write (s ++ "\n")

/-- Source `SendProblem` (part_000 lines 127-132): set the `Content-Type`
header to the problem media type, write the status line, then stream the
JSON-encoded problem value, returning the encoder's error result. -/
def SendProblem (w : ResponseWriter) (statusCode : Int) (problemVal : GoValue) :
    ResponseWriter × Option String :=
  let w1 := w.setHeader "Content-Type" contentType
  let w2 := w1.writeHeader statusCode
  Encoder.encode w2 problemVal

/-- A response writer in its initial state, before any handler ran. -/
def freshWriter : ResponseWriter :=
  { header := [], wroteHeader := none, body := "", writeError := none, events := [] }

/-- The events `SendProblem` appends after the header-set and status-line
events: the body writes of this call. -/
def sendProblemBodyEvents (w : ResponseWriter) (code : Int) (v : GoValue) :
    List RWEvent :=
  ((SendProblem w code v).1.events).drop (w.events.length + 2)

/-- Helper: `writeHeader` never changes the stream-failure state. -/
theorem ResponseWriter.writeHeader_writeError (w : ResponseWriter) (code : Int) :
    (w.writeHeader code).writeError = w.writeError := by
  unfold ResponseWriter.writeHeader
  split <;> rfl

/-- Helper: `writeHeader` never changes the header map. -/
theorem ResponseWriter.writeHeader_header (w : ResponseWriter) (code : Int) :
    (w.writeHeader code).header = w.header := by
  unfold ResponseWriter.writeHeader
  split <;> rfl

/-- Helper: the error returned by `write` is exactly the stream's failure
state. -/
theorem ResponseWriter.write_snd (w : ResponseWriter) (chunk : String) :
    (w.write chunk).2 = w.writeError := by
  unfold ResponseWriter.write
  cases hw : w.writeError <;> simp [hw]

/-- Helper: `write` never changes the header map. -/
theorem ResponseWriter.write_header_eq (w : ResponseWriter) (chunk : String) :
    ((w.write chunk).1).header = w.header := by
  unfold ResponseWriter.write
  cases hw : w.writeError <;> cases hh : w.wroteHeader <;> simp [hw, hh]

/-- Helper: the error result of `SendProblem`, in closed form — the marshal
error when encoding fails, otherwise the stream's failure state. -/
theorem sendProblem_snd (w : ResponseWriter) (code : Int) (v : GoValue) :
    (SendProblem w code v).2 =
      (match v.marshal with
       | Except.error e => some e
       | Except.ok _ => w.writeError) := by
  cases v with
  | problemVal p =>
    show (((w.setHeader "Content-Type" contentType).writeHeader code).write
        (p.marshal ++ "\n")).2 = w.writeError
    rw [ResponseWriter.write_snd, ResponseWriter.writeHeader_writeError]
    rfl
  | unencodable t => rfl

/-- Helper: the header map after `SendProblem`, in closed form. -/
theorem sendProblem_header (w : ResponseWriter) (code : Int) (v : GoValue) :
    (SendProblem w code v).1.header = Header.set w.header "Content-Type" contentType := by
  cases v with
  | problemVal p =>
    show (((w.setHeader "Content-Type" contentType).writeHeader code).write
        (p.marshal ++ "\n")).1.header = _
    rw [ResponseWriter.write_header_eq, ResponseWriter.writeHeader_header]
    rfl
  | unencodable t =>
    show ((w.setHeader "Content-Type" contentType).writeHeader code).header = _
    rw [ResponseWriter.writeHeader_header]
    rfl

/-- Helper: dropping a prefix and two further elements of a list reaches the
tail after those two elements. -/
theorem drop_prefix_two {α : Type} (l : List α) (a b : α) (t : List α) :
    (l ++ a :: b :: t).drop (l.length + 2) = t := by
  induction l with
  | nil => rfl
  | cons x xs ih =>
    simp only [List.cons_append, List.length_cons]
    rw [Nat.add_right_comm, List.drop_succ_cons]
    exact ih

/-- Helper: entries surviving the filter that `Header.set` applies never match
the key that was set. -/
theorem filter_after_set (h : List (String × String)) (key : String) :
    (h.filter (fun e => !(e.1 == key))).filter (fun e => e.1 == key) = [] := by
  induction h with
  | nil => rfl
  | cons a t ih => cases hak : (a.1 == key) <;> simp [List.filter_cons, hak, ih]

/-- Helper: the events appended by one `SendProblem` call on a writer whose
status line is not yet written, in closed form. -/
theorem sendProblem_events (w : ResponseWriter) (code : Int) (v : GoValue)
    (h : w.wroteHeader = none) :
    (SendProblem w code v).1.events =
      w.events ++ RWEvent.setHeader "Content-Type" contentType ::
        RWEvent.writeHeader code ::
        (match v.marshal, w.writeError with
         | Except.ok s, none => [RWEvent.write (s ++ "\n")]
         | _, _ => []) := by
  cases v with
  | unencodable t =>
    show ((w.setHeader "Content-Type" contentType).writeHeader code).events = _
    unfold ResponseWriter.writeHeader ResponseWriter.setHeader
    simp [h, GoValue.marshal]
  | problemVal p =>
    show (((w.setHeader "Content-Type" contentType).writeHeader code).write
        (p.marshal ++ "\n")).1.events = _
    unfold ResponseWriter.write ResponseWriter.writeHeader ResponseWriter.setHeader
    cases hw : w.writeError <;> simp [h, hw, GoValue.marshal]

/-- A concrete problem value used by witnesses. -/
def sampleProblem : Problem :=
  { type := "", title := "Forbidden", status := 0, detail := "", «instance» := "" }

/-- C3: for every status code and problem value, the side effects of
`SendProblem` on a writer whose status line is still unwritten are, in strict
order: one `Content-Type` header set, then the status line with the given
code, and only then body writes — so header and status are finalized before
any body bytes. -/
theorem sendProblem_effect_order (w : ResponseWriter) (code : Int) (v : GoValue)
    (h : w.wroteHeader = none) :
    (SendProblem w code v).1.events =
      w.events ++ RWEvent.setHeader "Content-Type" contentType ::
        RWEvent.writeHeader code :: sendProblemBodyEvents w code v ∧
    (sendProblemBodyEvents w code v).all RWEvent.isWrite = true := by
  have he := sendProblem_events w code v h
  have hb : sendProblemBodyEvents w code v =
      (match v.marshal, w.writeError with
       | Except.ok s, none => [RWEvent.write (s ++ "\n")]
       | _, _ => []) := by
    unfold sendProblemBodyEvents
    rw [he, drop_prefix_two]
  refine ⟨by rw [he, hb], ?_⟩
  rw [hb]
  cases hm : v.marshal <;> cases hw : w.writeError <;> rfl

/-- Witness for C3 at a fresh writer, status 403 and a concrete problem. -/
theorem sendProblem_effect_order_witness :
    freshWriter.wroteHeader = none ∧
    ((SendProblem freshWriter 403 (GoValue.problemVal sampleProblem)).1.events =
      freshWriter.events ++ RWEvent.setHeader "Content-Type" contentType ::
        RWEvent.writeHeader 403 ::
          sendProblemBodyEvents freshWriter 403 (GoValue.problemVal sampleProblem) ∧
     (sendProblemBodyEvents freshWriter 403 (GoValue.problemVal sampleProblem)).all
        RWEvent.isWrite = true) :=
  ⟨rfl, sendProblem_effect_order freshWriter 403 (GoValue.problemVal sampleProblem) rfl⟩

/-- C4: for every `Problem` value, a key appears in the serialized JSON object
exactly when the corresponding field is not the zero value of its type — an
absent field contributes no key at all, neither `null` nor an empty string;
in particular a value with only `title` set serializes to an object with only
the `"title"` key. -/
theorem problem_omitempty (p : Problem) :
    (("type" ∈ (p.jsonFields).map Prod.fst) ↔ p.type ≠ "") ∧
    (("title" ∈ (p.jsonFields).map Prod.fst) ↔ p.title ≠ "") ∧
    (("status" ∈ (p.jsonFields).map Prod.fst) ↔ p.status ≠ 0) ∧
    (("detail" ∈ (p.jsonFields).map Prod.fst) ↔ p.detail ≠ "") ∧
    (("instance" ∈ (p.jsonFields).map Prod.fst) ↔ p.«instance» ≠ "") ∧
    Problem.marshal { type := "", title := "Bad", status := 0, detail := "", «instance» := "" } =
      "\x7b\"title\":\"Bad\"\x7d" := by
  refine ⟨?_, ?_, ?_, ?_, ?_, rfl⟩
  all_goals
    unfold Problem.jsonFields
    split_ifs <;> simp_all

/-- C5: for every writer, status code and problem value, `SendProblem` returns
no error exactly when the value marshals and the underlying stream accepts the
write; otherwise the error it returns to the caller is precisely the marshal
error or the stream's write error. -/
theorem sendProblem_error_result (w : ResponseWriter) (code : Int) (v : GoValue) :
    ((SendProblem w code v).2 = none ↔
      (∃ s : String, v.marshal = Except.ok s) ∧ w.writeError = none) ∧
    ((SendProblem w code v).2 = none ∨
      (∃ e : String, (SendProblem w code v).2 = some e ∧
        (v.marshal = Except.error e ∨ w.writeError = some e))) := by
  have h := sendProblem_snd w code v
  cases hm : v.marshal with
  | error e =>
    rw [hm] at h
    have h' : (SendProblem w code v).2 = some e := by rw [h]
    exact ⟨by rw [h']; simp [hm], Or.inr ⟨e, h', Or.inl rfl⟩⟩
  | ok s =>
    rw [hm] at h
    cases hw : w.writeError with
    | none =>
      rw [hw] at h
      have h' : (SendProblem w code v).2 = none := by rw [h]
      exact ⟨by rw [h']; simp [hm, hw], Or.inl h'⟩
    | some e =>
      rw [hw] at h
      have h' : (SendProblem w code v).2 = some e := by rw [h]
      exact ⟨by rw [h']; simp [hm, hw], Or.inr ⟨e, h', Or.inr rfl⟩⟩

/-- C6: for every writer — including one on which some other content type was
previously set — `SendProblem` leaves exactly one `Content-Type` entry in the
header map, holding `application/problem+json`: the prior value is replaced,
not appended to. -/
theorem sendProblem_content_type_replaces (w : ResponseWriter) (code : Int) (v : GoValue) :
    ((SendProblem w code v).1.header).filter (fun e => e.1 == "Content-Type") =
      [("Content-Type", contentType)] := by
  rw [sendProblem_header]
  simp [Header.set, List.filter_cons, filter_after_set]

/-- The problem value of the spec's scenario for `SendProblem`. -/
def exampleProblem : Problem :=
  { type := "https://example.com/x", title := "Bad", status := 400,
    detail := "", «instance» := "" }

/-- C7 counterexample: sending the scenario's problem value with status 400
does not produce exactly the claimed body, because `json.Encoder.Encode`
appends a newline after the JSON document. -/
theorem sendProblem_example_exact_body_false :
    ¬ ((SendProblem freshWriter 400 (GoValue.problemVal exampleProblem)).1.wroteHeader =
        some 400 ∧
      (SendProblem freshWriter 400 (GoValue.problemVal exampleProblem)).1.body =
        "\x7b\"type\":\"https://example.com/x\",\"title\":\"Bad\",\"status\":400\x7d") := by
  intro hcontra
  exact absurd hcontra.2 (by decide)

/-- C7 (amended): sending the scenario's problem value with status 400 writes
response status 400 and a body that is exactly the claimed JSON document
followed by the newline `json.Encoder.Encode` appends. -/
theorem sendProblem_example_body :
    (SendProblem freshWriter 400 (GoValue.problemVal exampleProblem)).1.wroteHeader =
      some 400 ∧
    (SendProblem freshWriter 400 (GoValue.problemVal exampleProblem)).1.body =
      "\x7b\"type\":\"https://example.com/x\",\"title\":\"Bad\",\"status\":400\x7d\n" :=
  ⟨rfl, rfl⟩
